import Mathlib

/-!
Verification of the namira-core distributed check-dispatch engine
(internal/grpc: core.go, roundrobin.go, aggregated.go, client.go, and the
internal/config environment parsing).

The Go code is embedded shallowly: channels of responses become lists in
arrival order, goroutine outcomes become explicit parameters, and the
connection state machine becomes a record with explicit transitions.
-/

namespace Namira

/-- Mirrors the CheckResult status constants of the core package
(CheckResultStatusSuccess, CheckResultStatusUnavailable, CheckResultStatusError). -/
inductive CheckResultStatus
  | success
  | unavailable
  | error
  deriving DecidableEq, Repr

/-- Mirrors CheckerResponse from client.go.  LatencyMs is modelled as an
unbounded integer (the Go int64 never comes near overflow here); the
Timestamp is carried as integer nanoseconds. -/
structure CheckerResponse where
  JobID : String := ""
  Config : String := ""
  IsValid : Bool := false
  LatencyMs : Int := 0
  Error : String := ""
  Protocol : String := ""
  Server : String := ""
  CountryCode : String := ""
  Remark : String := ""
  Status : String := ""
  Timestamp : Int := 0
  CheckerNodeTag : String := ""
  deriving DecidableEq, Repr

instance : Inhabited CheckerResponse := ⟨{}⟩

/-- Mirrors core.CheckResult as populated by the grpc package.  RealDelay is
kept in milliseconds (the Go code multiplies the same number by
time.Millisecond to obtain a Duration). -/
structure CheckResult where
  Raw : String := ""
  Protocol : String := ""
  Server : String := ""
  CountryCode : String := ""
  Remark : String := ""
  RealDelayMs : Int := 0
  Error : String := ""
  Status : CheckResultStatus := .error
  CheckerNodeTag : List String := []
  deriving DecidableEq, Repr

/-- Mirrors convertToCheckResult in core.go. -/
def convertToCheckResult (grpcResult : CheckerResponse) : CheckResult :=
  let result : CheckResult :=
    { Raw := grpcResult.Config
      Protocol := grpcResult.Protocol
      Server := grpcResult.Server
      CountryCode := grpcResult.CountryCode
      Remark := grpcResult.Remark
      RealDelayMs := grpcResult.LatencyMs
      CheckerNodeTag := [grpcResult.CheckerNodeTag] }
  if grpcResult.IsValid && grpcResult.Status == "SUCCESS" then
    { result with Status := .success }
  else if grpcResult.Status == "TIMEOUT" then
    { result with Status := .unavailable, Error := "Connection timeout" }
  else
    { result with Status := .error, Error := grpcResult.Error }

/-- A response is terminal when its wire status is neither CHECKING nor
PENDING; this is the filtering condition written inline in
processWorkerResults (roundrobin.go) and processConfigWithSingleWorker
(aggregated.go). -/
def isTerminal (result : CheckerResponse) : Bool :=
  !(result.Status == "CHECKING") && !(result.Status == "PENDING")

/-- The outcome of one CheckerClient.CheckConfigs call made on behalf of a
single item: either the call itself fails, or it yields the stream of
responses (in arrival order, ending when the response channel closes). -/
inductive WorkerOutcome
  | callError (msg : String)
  | stream (responses : List CheckerResponse)
  deriving DecidableEq, Repr

/-- Mirrors processWorkerResults in roundrobin.go: scan the response stream,
drop CHECKING/PENDING responses, forward the first terminal response
(re-stamped with the tag reported by the node) and stop.  If the stream
closes first, nothing is forwarded. -/
def processWorkerResults : List CheckerResponse → List CheckResult
  | [] => []
  | result :: rest =>
    if !(result.Status == "CHECKING") && !(result.Status == "PENDING") then
      [{ convertToCheckResult result with CheckerNodeTag := [result.CheckerNodeTag] }]
    else
      processWorkerResults rest

/-- Mirrors handleWorkerError in roundrobin.go. -/
def handleWorkerError (config : String) (errMsg : String) : CheckResult :=
  { Status := .error
    Error := errMsg
    Raw := config
    CheckerNodeTag := [] }

/-- Mirrors processConfigWithWorker in roundrobin.go: a failed call yields one
synthesized error result, otherwise the stream is filtered by
processWorkerResults. -/
def processConfigWithWorker (config : String) (outcome : WorkerOutcome) : List CheckResult :=
  match outcome with
  | .callError msg => [handleWorkerError config msg]
  | .stream responses => processWorkerResults responses

/-- Mirrors handleNoClients in roundrobin.go. -/
def handleNoClients (config : String) : CheckResult :=
  { Status := .error
    Error := "no available checker clients"
    Raw := config
    CheckerNodeTag := [] }

/-- Mirrors distributeConfigsToWorkers in roundrobin.go: item i is paired with
client index i % numClients. -/
def distributeConfigsToWorkers (configs : List String) (numClients : Nat) :
    List (String × Nat) :=
  configs.enum.map (fun ic => (ic.2, ic.1 % numClients))

/-- Mirrors distributeConfigsAcrossWorkers in roundrobin.go: with an empty
pool every item gets a synthesized error; otherwise every item is processed
by its own worker call and the per-item results are concatenated (the
channel merge order does not affect the multiset of results, so we fix the
item order). -/
def distributeConfigsAcrossWorkers (configs : List String) (numClients : Nat)
    (outcome : Nat → WorkerOutcome) : List CheckResult :=
  if numClients = 0 then
    configs.map handleNoClients
  else
    configs.enum.flatMap (fun ic => processConfigWithWorker ic.2 (outcome ic.1))

/-- Mirrors the workerResult struct of aggregated.go (result is nil exactly
when err is set). -/
structure workerResult where
  tag : String := ""
  result : Option CheckerResponse := none
  err : Option String := none
  deriving DecidableEq, Repr

instance : Inhabited workerResult := ⟨{}⟩

/-- Mirrors the stream-consuming loop of processConfigWithSingleWorker in
aggregated.go: forward the first terminal response as a successful
workerResult (tagged with the tag the node reported); if the stream closes
without one, report the fixed "no result received" error. -/
def receiveLoop (tag : String) : List CheckerResponse → workerResult
  | [] => { tag := tag, err := some "no result received" }
  | result :: rest =>
    if !(result.Status == "CHECKING") && !(result.Status == "PENDING") then
      { tag := result.CheckerNodeTag, result := some result }
    else
      receiveLoop tag rest

/-- Mirrors processConfigWithSingleWorker in aggregated.go. -/
def processConfigWithSingleWorker (tag : String) (outcome : WorkerOutcome) : workerResult :=
  match outcome with
  | .callError msg => { tag := tag, err := some msg }
  | .stream responses => receiveLoop tag responses

/-- Mirrors isSuccessfulResult in aggregated.go. -/
def isSuccessfulResult (result : CheckerResponse) : Bool :=
  result.IsValid && result.Status == "SUCCESS"

/-- Mirrors createErrorResult in aggregated.go. -/
def createErrorResult (errorMsg config : String) (tags : List String) : CheckResult :=
  { Status := .error
    Error := errorMsg
    Raw := config
    CheckerNodeTag := tags }

/-- Mirrors buildAggregatedResult in aggregated.go: empty successful subset
gives the fixed all-workers-failed error; otherwise the merged result takes
its metadata from the first successful response and the truncating integer
mean of the collected latencies. -/
def buildAggregatedResult (config : String) (successfulResults : List workerResult)
    (totalLatency : Int) (successfulTags : List String) : CheckResult :=
  if successfulResults = [] then
    createErrorResult "all workers failed to validate config" config []
  else
    let baseResult := successfulResults.headI.result.getD {}
    let avgLatency := totalLatency.tdiv (successfulResults.length : Int)
    { Status := .success
      Protocol := baseResult.Protocol
      Raw := baseResult.Config
      Server := baseResult.Server
      CountryCode := baseResult.CountryCode
      Remark := baseResult.Remark
      RealDelayMs := avgLatency
      CheckerNodeTag := successfulTags }

/-- Mirrors the collection loop of collectAndAggregateResults in
aggregated.go: one iteration per pool member consumes the next arriving
workerResult, accumulating the successful subset, its total latency and its
tags; when the arrivals are exhausted before the loop finishes, the job
deadline has fired and the loop aborts with the tags collected so far. -/
def collectLoop :
    Nat → List workerResult → List workerResult → Int → List String →
      Except (List String) (List workerResult × Int × List String)
  | 0, _, successfulResults, totalLatency, successfulTags =>
    .ok (successfulResults, totalLatency, successfulTags)
  | _ + 1, [], _, _, successfulTags => .error successfulTags
  | remaining + 1, w :: rest, successfulResults, totalLatency, successfulTags =>
    match w.err with
    | some _ => collectLoop remaining rest successfulResults totalLatency successfulTags
    | none =>
      let r := w.result.getD {}
      if isSuccessfulResult r then
        collectLoop remaining rest (successfulResults ++ [w])
          (totalLatency + r.LatencyMs) (successfulTags ++ [r.CheckerNodeTag])
      else
        collectLoop remaining rest successfulResults totalLatency successfulTags

/-- Mirrors collectAndAggregateResults in aggregated.go, with the channel
abstracted as the list of workerResults in arrival order (one per member
unless the deadline cuts the collection short). -/
def collectAndAggregateResults (config : String) (numClients : Nat)
    (arrivals : List workerResult) : CheckResult :=
  match collectLoop numClients arrivals [] 0 [] with
  | .error successfulTags =>
    createErrorResult "timeout waiting for worker results" config successfulTags
  | .ok (successfulResults, totalLatency, successfulTags) =>
    buildAggregatedResult config successfulResults totalLatency successfulTags

/-- Mirrors processConfigWithAllWorkers in aggregated.go. -/
def processConfigWithAllWorkers (config : String) (numClients : Nat)
    (arrivals : List workerResult) : CheckResult :=
  if numClients = 0 then
    createErrorResult "no available checker clients" config []
  else
    collectAndAggregateResults config numClients arrivals

/-- A member outcome counts as successful when it carries no error and its
response reports validity and SUCCESS status (the condition the collection
loop applies). -/
def isSuccessArrival (w : workerResult) : Bool :=
  w.err.isNone && isSuccessfulResult (w.result.getD {})

/-- Latency reported by an arriving member outcome. -/
def arrivalLatency (w : workerResult) : Int :=
  (w.result.getD {}).LatencyMs

/-- Node tag reported by an arriving member outcome. -/
def arrivalTag (w : workerResult) : String :=
  (w.result.getD {}).CheckerNodeTag

/-- Three member outcomes: successes at 100ms and 200ms plus one error. -/
def sampleSuccessArrivals : List workerResult :=
  [ { tag := "t1"
      result := some { Config := "cfg", IsValid := true, LatencyMs := 100, Protocol := "vmess",
                       Server := "s1", CountryCode := "US", Remark := "r1",
                       Status := "SUCCESS", CheckerNodeTag := "t1" } },
    { tag := "t2"
      result := some { Config := "cfg", IsValid := true, LatencyMs := 200, Protocol := "vmess",
                       Server := "s1", CountryCode := "US", Remark := "r1",
                       Status := "SUCCESS", CheckerNodeTag := "t2" } },
    { tag := "t3", err := some "dial error" } ]

/-- Two member outcomes that both fail: a transport error and a TIMEOUT. -/
def sampleFailedArrivals : List workerResult :=
  [ { tag := "t1", err := some "dial error" },
    { tag := "t2", result := some { Status := "TIMEOUT", CheckerNodeTag := "t2" } } ]

/-- Two member outcomes of a three-member pool: one success, one error; the
third member never reports. -/
def sampleDeadlineArrivals : List workerResult :=
  [ { tag := "t1"
      result := some { IsValid := true, Status := "SUCCESS", LatencyMs := 80,
                       CheckerNodeTag := "t1" } },
    { tag := "t2", err := some "dial error" } ]

/-- The connection-management state of a CheckerClient (client.go): whether a
channel object exists (conn is non-nil), the connected flag, the
reconnecting flag, and a counter of how many times the channel was torn down
(conn.Close calls), which lets theorems speak about teardown. -/
structure ConnState where
  hasConn : Bool := false
  connected : Bool := false
  reconnecting : Bool := false
  closeCount : Nat := 0
  deriving DecidableEq, Repr

/-- Outcome of a reconnect call. -/
inductive ReconnectOutcome
  | ok
  | alreadyReconnecting
  | connectFailed
  deriving DecidableEq, Repr

/-- Mirrors reconnect in client.go; createOk tells whether createConnection
succeeds.  If the reconnecting flag is observed set, the call fails
immediately and touches nothing.  Otherwise the flag is held for the
duration (it is reset by a defer, so the final state has it back at false),
any existing channel is closed with connected set to false, and a fresh
channel flips connected to true on success. -/
def reconnect (c : ConnState) (createOk : Bool) : ConnState × ReconnectOutcome :=
  if c.reconnecting then
    (c, .alreadyReconnecting)
  else
    let c1 := if c.hasConn then
      { c with connected := false, closeCount := c.closeCount + 1 }
    else c
    if createOk then
      ({ c1 with hasConn := true, connected := true }, .ok)
    else
      (c1, .connectFailed)

/-- Mirrors ensureConnected in client.go: fast path when connected, otherwise
a reconnect attempt. -/
def ensureConnected (c : ConnState) (createOk : Bool) : ConnState × Option ReconnectOutcome :=
  if c.connected then
    (c, none)
  else
    let r := reconnect c createOk
    (r.1, some r.2)

/-- Mirrors Close in client.go: if a channel exists it is closed and the
connected flag cleared; the channel handle itself is kept. -/
def close (c : ConnState) : ConnState :=
  if c.hasConn then
    { c with connected := false, closeCount := c.closeCount + 1 }
  else c

/-- Mirrors CheckerNodeConfig from the config package. -/
structure CheckerNodeConfig where
  Addr : String
  Tag : String
  deriving DecidableEq, Repr

/-- The three environment variables consulted by parseCheckerNodes; an unset
variable is the empty string, exactly as os.Getenv reports it. -/
structure ConfigEnv where
  checkerNodes : String := ""
  checkerServiceAddr : String := ""
  checkerNodeTag : String := ""
  deriving DecidableEq, Repr

/-- Mirrors getEnv from the config package: the value when non-empty,
otherwise the default. -/
def getEnv (value defaultValue : String) : String :=
  if value ≠ "" then value else defaultValue

/-- Mirrors the defaultCheckerAddr constant of the config package. -/
def defaultCheckerAddr : String := "localhost:50051"

/-- The single fallback node parseCheckerNodes builds from
GRPC_CHECKER_SERVICE_ADDR and GRPC_CHECKER_NODE_TAG. -/
def fallbackNode (env : ConfigEnv) : CheckerNodeConfig :=
  { Addr := getEnv env.checkerServiceAddr defaultCheckerAddr
    Tag := getEnv env.checkerNodeTag "default" }

/-- The loop body of parseCheckerNodes: split the trimmed entry on colons;
with at least two parts, the tag is the last part and the address is the
rest rejoined with colons; otherwise the entry is dropped. -/
def collectNode (nodes : List CheckerNodeConfig) (pair : String) : List CheckerNodeConfig :=
  let parts := pair.trim.splitOn ":"
  if 2 ≤ parts.length then
    nodes ++ [{ Addr := String.intercalate ":" parts.dropLast
                Tag := parts.getLast?.getD "" }]
  else nodes

/-- Mirrors parseCheckerNodes from the config package. -/
def parseCheckerNodes (env : ConfigEnv) : List CheckerNodeConfig :=
  let nodesEnv := getEnv env.checkerNodes ""
  if nodesEnv = "" then
    [fallbackNode env]
  else
    let pairs := nodesEnv.splitOn ","
    let nodes := pairs.foldl collectNode []
    if nodes = [] then [fallbackNode env] else nodes

/-- Modelled from the claim wording, for comparison with collectNode: an
entry parses to a node whose tag is the text after the last colon and whose
address is everything before it rejoined with colons; an entry with fewer
than two colon-separated parts parses to nothing. -/
def specEntryNode (entry : String) : Option CheckerNodeConfig :=
  let parts := entry.trim.splitOn ":"
  if parts.length < 2 then none
  else some { Addr := String.intercalate ":" parts.dropLast
              Tag := parts.getLast?.getD "" }

/-- Nanoseconds in one second, the unit time.Duration counts in. -/
def nsPerSecond : Int := 1000000000

/-- Mirrors Go Duration.Truncate toward zero (for a non-positive multiple it
returns the duration unchanged). -/
def durationTruncate (d m : Int) : Int :=
  if m ≤ 0 then d else d - d.tmod m

/-- The timeout normalization at the top of NewGRPCCore (core.go): truncate
to whole seconds first, then replace a non-positive value with the
30-second default. -/
def effectiveTimeout (timeout : Int) : Int :=
  let t := durationTruncate timeout nsPerSecond
  if t ≤ 0 then 30 * nsPerSecond else t

/-- The MaxConcurrent normalization in NewGRPCCore. -/
def effectiveMaxConcurrent (maxConcurrent : Int) : Int :=
  if maxConcurrent ≤ 0 then 100 else maxConcurrent

/-- The options NewGRPCCore consumes (transport options and logger omitted:
they do not influence the modelled control flow). -/
structure GRPCCoreOpts where
  CheckerServiceAddr : String := ""
  CheckerNodes : List CheckerNodeConfig := []
  Timeout : Int := 0
  MaxConcurrent : Int := 0
  AggregateMode : Bool := false
  deriving DecidableEq, Repr

/-- The engine state NewGRPCCore builds; clients are identified by the
address they were created for. -/
structure GRPCCore where
  clients : List String
  clientTags : List String
  timeout : Int
  maxConcurrent : Int
  aggregateMode : Bool
  deriving DecidableEq, Repr

/-- The loop body of the multi-node branch of NewGRPCCore: a node whose
client creation succeeds is appended to the clients and tags lists; a node
whose creation fails is logged and skipped. -/
def addNode (create : String → Bool) (acc : List String × List String)
    (node : CheckerNodeConfig) : List String × List String :=
  if create node.Addr then (acc.1 ++ [node.Addr], acc.2 ++ [node.Tag]) else acc

/-- Mirrors NewGRPCCore in core.go; create tells, per address, whether
NewCheckerClient succeeds.  The multi-node branch collects the nodes whose
creation succeeds; the legacy branch aborts on a creation failure; an empty
resulting pool is an error. -/
def NewGRPCCore (opts : GRPCCoreOpts) (create : String → Bool) : Except String GRPCCore :=
  let timeout := effectiveTimeout opts.Timeout
  let maxConcurrent := effectiveMaxConcurrent opts.MaxConcurrent
  let pool : Except String (List String × List String) :=
    if 0 < opts.CheckerNodes.length then
      .ok (opts.CheckerNodes.foldl (addNode create) ([], []))
    else if opts.CheckerServiceAddr ≠ "" then
      if create opts.CheckerServiceAddr then
        .ok ([opts.CheckerServiceAddr], ["legacy"])
      else
        .error "failed to create checker client"
    else
      .ok ([], [])
  match pool with
  | .error e => .error e
  | .ok (clients, tags) =>
    if clients = [] then
      .error "no checker nodes available"
    else
      .ok { clients := clients, clientTags := tags, timeout := timeout,
            maxConcurrent := maxConcurrent, aggregateMode := opts.AggregateMode }

end Namira

namespace Namira

/-- Claim C3: in sharded mode, for a pool of numClients clients, the item at
index i of the batch is dispatched, deterministically, to the client at index
i % numClients. -/
theorem sharded_routes_item_to_index_mod_pool (configs : List String) (numClients : Nat)
    (_hn : 0 < numClients) (i : Nat) (hi : i < configs.length) :
    (distributeConfigsToWorkers configs numClients)[i]? = some (configs[i], i % numClients) := by
  unfold distributeConfigsToWorkers
  rw [List.getElem?_map, List.getElem?_enum, List.getElem?_eq_getElem hi]
  rfl

theorem sharded_routes_item_to_index_mod_pool_witness :
    (distributeConfigsToWorkers ["a", "b", "c"] 2)[2]? = some ("c", 2 % 2) := by
  exact sharded_routes_item_to_index_mod_pool ["a", "b", "c"] 2 (by decide) 2 (by decide)

/-- Claim C7: non-terminal (CHECKING/PENDING) responses are never surfaced:
both the sharded forwarding loop and the replicated per-worker collection
loop yield exactly the first terminal response of the stream — so a stream
PENDING, CHECKING, SUCCESS produces one result — and nothing at all past it. -/
theorem nonterminal_responses_filtered :
    (∀ responses : List CheckerResponse,
      processWorkerResults responses =
        ((responses.find? isTerminal).map
          (fun r => { convertToCheckResult r with CheckerNodeTag := [r.CheckerNodeTag] })).toList) ∧
    (∀ (tag : String) (responses : List CheckerResponse),
      receiveLoop tag responses =
        match responses.find? isTerminal with
        | some r => { tag := r.CheckerNodeTag, result := some r }
        | none => { tag := tag, err := some "no result received" }) := by
  constructor
  · intro responses
    induction responses with
    | nil => rfl
    | cons r rest ih =>
      by_cases h : isTerminal r
      · rw [List.find?_cons_of_pos _ h]
        unfold processWorkerResults
        rw [if_pos (by simpa [isTerminal] using h)]
        rfl
      · rw [List.find?_cons_of_neg _ h]
        unfold processWorkerResults
        rw [if_neg (by simpa [isTerminal] using h)]
        exact ih
  · intro tag responses
    induction responses with
    | nil => rfl
    | cons r rest ih =>
      by_cases h : isTerminal r
      · rw [List.find?_cons_of_pos _ h]
        unfold receiveLoop
        rw [if_pos (by simpa [isTerminal] using h)]
      · rw [List.find?_cons_of_neg _ h]
        unfold receiveLoop
        rw [if_neg (by simpa [isTerminal] using h)]
        exact ih

/-- Claim C1 (divergence witness): in sharded mode, an item whose node stream
terminates without ever delivering a terminal response yields zero
CheckResults, not one.  Pool of one client, batch of one item, stream closing
after a single PENDING response: the result list is empty. -/
theorem sharded_drops_item_with_terminalless_stream :
    distributeConfigsAcrossWorkers ["vmess-example-config"] 1
      (fun _ => WorkerOutcome.stream [{ Status := "PENDING" }]) = [] := by
  rfl

/-- Running the collection loop when every pool member reports before the
deadline: the loop succeeds, accumulating exactly the successful arrivals,
the sum of their latencies and their tags, in arrival order. -/
theorem collectLoop_complete (arrivals : List workerResult) :
    ∀ (s : List workerResult) (t : Int) (g : List String),
      collectLoop arrivals.length arrivals s t g =
        .ok (s ++ arrivals.filter isSuccessArrival,
             t + ((arrivals.filter isSuccessArrival).map arrivalLatency).sum,
             g ++ (arrivals.filter isSuccessArrival).map arrivalTag) := by
  induction arrivals with
  | nil => intro s t g; simp [collectLoop]
  | cons w rest ih =>
    intro s t g
    cases hw : w.err with
    | some e =>
      have hfail : isSuccessArrival w = false := by simp [isSuccessArrival, hw]
      simp only [List.length_cons, collectLoop, hw]
      rw [ih]
      simp [List.filter_cons, hfail]
    | none =>
      by_cases hr : isSuccessfulResult (w.result.getD {})
      · have hsucc : isSuccessArrival w = true := by simp [isSuccessArrival, hw, hr]
        simp only [List.length_cons, collectLoop, hw]
        rw [if_pos hr, ih]
        simp [List.filter_cons, hsucc, arrivalLatency, arrivalTag, List.append_assoc]
        ring
      · have hfail : isSuccessArrival w = false := by simp [isSuccessArrival, hw, hr]
        simp only [List.length_cons, collectLoop, hw]
        rw [if_neg hr, ih]
        simp [List.filter_cons, hfail]

/-- Running the collection loop when the arrivals run out before one outcome
per pool member was collected: the deadline branch fires and returns the tags
of the successful arrivals seen so far. -/
theorem collectLoop_deadline (arrivals : List workerResult) :
    ∀ (k : Nat), arrivals.length < k →
      ∀ (s : List workerResult) (t : Int) (g : List String),
        collectLoop k arrivals s t g =
          .error (g ++ (arrivals.filter isSuccessArrival).map arrivalTag) := by
  induction arrivals with
  | nil =>
    intro k hk s t g
    cases k with
    | zero => omega
    | succ k2 => simp [collectLoop]
  | cons w rest ih =>
    intro k hk s t g
    cases k with
    | zero => omega
    | succ k2 =>
      have hk2 : rest.length < k2 := by simpa using hk
      cases hw : w.err with
      | some e =>
        have hfail : isSuccessArrival w = false := by simp [isSuccessArrival, hw]
        simp only [collectLoop, hw]
        rw [ih k2 hk2]
        simp [List.filter_cons, hfail]
      | none =>
        by_cases hr : isSuccessfulResult (w.result.getD {})
        · have hsucc : isSuccessArrival w = true := by simp [isSuccessArrival, hw, hr]
          simp only [collectLoop, hw]
          rw [if_pos hr, ih k2 hk2]
          simp [List.filter_cons, hsucc, arrivalTag, List.append_assoc]
        · have hfail : isSuccessArrival w = false := by simp [isSuccessArrival, hw, hr]
          simp only [collectLoop, hw]
          rw [if_neg hr, ih k2 hk2]
          simp [List.filter_cons, hfail]

/-- Claim C2: in replicated mode, when every member reports and at least one
member succeeds, the merged result is a Success whose latency is the
truncating integer mean of the successful latencies, whose metadata comes
from the first successful response collected, and whose node-tag list is
exactly the tags of the successful members. -/
theorem aggregate_success_merges_mean_and_tags (config : String) (numClients : Nat)
    (arrivals : List workerResult)
    (hlen : arrivals.length = numClients)
    (hs : arrivals.filter isSuccessArrival ≠ []) :
    collectAndAggregateResults config numClients arrivals =
      { Status := .success
        Protocol := ((arrivals.filter isSuccessArrival).headI.result.getD {}).Protocol
        Raw := ((arrivals.filter isSuccessArrival).headI.result.getD {}).Config
        Server := ((arrivals.filter isSuccessArrival).headI.result.getD {}).Server
        CountryCode := ((arrivals.filter isSuccessArrival).headI.result.getD {}).CountryCode
        Remark := ((arrivals.filter isSuccessArrival).headI.result.getD {}).Remark
        RealDelayMs := (((arrivals.filter isSuccessArrival).map arrivalLatency).sum).tdiv
          (((arrivals.filter isSuccessArrival).length : Nat) : Int)
        CheckerNodeTag := (arrivals.filter isSuccessArrival).map arrivalTag } := by
  subst hlen
  unfold collectAndAggregateResults
  rw [collectLoop_complete arrivals [] 0 []]
  simp only [List.nil_append, zero_add]
  unfold buildAggregatedResult
  rw [if_neg hs]

theorem aggregate_success_merge_witness :
    collectAndAggregateResults "cfg" 3 sampleSuccessArrivals =
      { Status := .success, Protocol := "vmess", Raw := "cfg", Server := "s1",
        CountryCode := "US", Remark := "r1", RealDelayMs := 150,
        CheckerNodeTag := ["t1", "t2"] } :=
  (aggregate_success_merges_mean_and_tags "cfg" 3 sampleSuccessArrivals
    (by decide) (by decide)).trans (by decide)

/-- Claim C4: in replicated mode, when every member reports and none
succeeds, the merged result is an Error carrying the fixed message and an
empty node-tag set. -/
theorem aggregate_all_members_failed (config : String) (numClients : Nat)
    (arrivals : List workerResult)
    (hlen : arrivals.length = numClients)
    (hfail : ∀ w ∈ arrivals, isSuccessArrival w = false) :
    collectAndAggregateResults config numClients arrivals =
      { Status := .error, Error := "all workers failed to validate config",
        Raw := config, CheckerNodeTag := [] } := by
  have hnil : arrivals.filter isSuccessArrival = [] := by
    rw [List.filter_eq_nil_iff]
    intro a ha
    simp [hfail a ha]
  subst hlen
  unfold collectAndAggregateResults
  rw [collectLoop_complete arrivals [] 0 []]
  simp only [hnil, List.nil_append, List.append_nil, List.map_nil, List.sum_nil, add_zero]
  rfl

theorem aggregate_all_members_failed_witness :
    collectAndAggregateResults "cfg" 2 sampleFailedArrivals =
      { Status := .error, Error := "all workers failed to validate config",
        Raw := "cfg", CheckerNodeTag := [] } :=
  aggregate_all_members_failed "cfg" 2 sampleFailedArrivals (by decide) (by decide)

/-- Claim C6: in replicated mode, when the job deadline fires before all pool
members have reported, the item is finalized with an Error result carrying
the timeout message and the tags of the members that had already reported
success. -/
theorem aggregate_deadline_finalizes_with_collected_tags (config : String) (numClients : Nat)
    (arrivals : List workerResult)
    (hlt : arrivals.length < numClients) :
    collectAndAggregateResults config numClients arrivals =
      { Status := .error, Error := "timeout waiting for worker results",
        Raw := config,
        CheckerNodeTag := (arrivals.filter isSuccessArrival).map arrivalTag } := by
  unfold collectAndAggregateResults
  rw [collectLoop_deadline arrivals numClients hlt [] 0 []]
  simp [createErrorResult]

theorem aggregate_deadline_witness :
    collectAndAggregateResults "cfg" 3 sampleDeadlineArrivals =
      { Status := .error, Error := "timeout waiting for worker results",
        Raw := "cfg", CheckerNodeTag := ["t1"] } :=
  (aggregate_deadline_finalizes_with_collected_tags "cfg" 3 sampleDeadlineArrivals
    (by decide)).trans (by decide)

/-- Claim C5: a reconnect call that observes the reconnecting flag set fails
immediately with the already-reconnecting outcome and leaves the state
untouched (no channel teardown, connected unchanged); a reconnect attempt
whose channel creation fails ends with connected = false (given the
invariant that a connected client holds a channel). -/
theorem reconnect_busy_fails_fast_and_failure_disconnects (c : ConnState) (createOk : Bool) :
    (c.reconnecting = true → reconnect c createOk = (c, .alreadyReconnecting)) ∧
    (c.reconnecting = false → (c.connected = true → c.hasConn = true) →
      (reconnect c false).1.connected = false ∧ (reconnect c false).2 = .connectFailed) := by
  constructor
  · intro h
    simp [reconnect, h]
  · intro h hinv
    by_cases hc : c.hasConn
    · simp [reconnect, h, hc]
    · have hcon : c.connected = false := by
        cases hcon : c.connected
        · rfl
        · exact absurd (hinv hcon) (by simp [hc])
      simp [reconnect, h, hc, hcon]

theorem reconnect_busy_witness :
    reconnect { hasConn := true, connected := true, reconnecting := true } true =
      ({ hasConn := true, connected := true, reconnecting := true }, .alreadyReconnecting) ∧
    (reconnect { hasConn := true, connected := true } false).1.connected = false :=
  ⟨(reconnect_busy_fails_fast_and_failure_disconnects
      { hasConn := true, connected := true, reconnecting := true } true).1 rfl,
   ((reconnect_busy_fails_fast_and_failure_disconnects
      { hasConn := true, connected := true } false).2 rfl (fun _ => rfl)).1⟩

/-- Folding the per-entry parsing step over the comma-separated entries
appends exactly the nodes of the entries that parse. -/
theorem collectNode_foldl (pairs : List String) :
    ∀ acc : List CheckerNodeConfig,
      pairs.foldl collectNode acc = acc ++ pairs.filterMap specEntryNode := by
  induction pairs with
  | nil => intro acc; simp
  | cons p rest ih =>
    intro acc
    simp only [List.foldl_cons, List.filterMap_cons]
    by_cases h : 2 ≤ (p.trim.splitOn ":").length
    · have hstep : collectNode acc p =
          acc ++ [{ Addr := String.intercalate ":" (p.trim.splitOn ":").dropLast
                    Tag := (p.trim.splitOn ":").getLast?.getD "" }] := by
        simp [collectNode, h]
      have hspec : specEntryNode p =
          some { Addr := String.intercalate ":" (p.trim.splitOn ":").dropLast
                 Tag := (p.trim.splitOn ":").getLast?.getD "" } := by
        simp [specEntryNode, Nat.not_lt.mpr h]
      rw [hstep, ih, hspec]
      simp
    · have hstep : collectNode acc p = acc := by
        simp [collectNode, h]
      have hspec : specEntryNode p = none := by
        simp [specEntryNode, Nat.lt_of_not_le h]
      rw [hstep, ih, hspec]

/-- Claim C10: parsing the comma-separated node string keeps exactly the
entries with at least two colon-separated parts, each parsed into the
after-last-colon tag and the rejoined address; an empty string or a parse
that keeps nothing yields the single fallback node built from the
single-address and tag variables, which default to localhost:50051 and
"default". -/
theorem parse_checker_nodes_characterized (env : ConfigEnv) :
    parseCheckerNodes env =
      if env.checkerNodes = "" ∨ (env.checkerNodes.splitOn ",").filterMap specEntryNode = [] then
        [{ Addr := getEnv env.checkerServiceAddr "localhost:50051"
           Tag := getEnv env.checkerNodeTag "default" }]
      else
        (env.checkerNodes.splitOn ",").filterMap specEntryNode := by
  have hfb : fallbackNode env =
      { Addr := getEnv env.checkerServiceAddr "localhost:50051"
        Tag := getEnv env.checkerNodeTag "default" } := rfl
  by_cases hE : env.checkerNodes = ""
  · simp [parseCheckerNodes, getEnv, hE, hfb]
  · have hne : getEnv env.checkerNodes "" = env.checkerNodes := by
      simp [getEnv, hE]
    unfold parseCheckerNodes
    rw [hne, if_neg hE]
    simp only [collectNode_foldl, List.nil_append]
    by_cases hS : (env.checkerNodes.splitOn ",").filterMap specEntryNode = []
    · simp [hS, hfb, hE]
    · simp [hS, hfb, hE]

/-- Folding the per-node construction step over the configured nodes keeps
exactly the nodes whose client creation succeeds, in order, with their
addresses and tags in the two parallel lists. -/
theorem addNode_foldl (nodes : List CheckerNodeConfig) (create : String → Bool) :
    ∀ acc : List String × List String,
      nodes.foldl (addNode create) acc =
        (acc.1 ++ (nodes.filter (fun node => create node.Addr)).map CheckerNodeConfig.Addr,
         acc.2 ++ (nodes.filter (fun node => create node.Addr)).map CheckerNodeConfig.Tag) := by
  induction nodes with
  | nil =>
    intro acc
    obtain ⟨a, b⟩ := acc
    simp
  | cons nd rest ih =>
    intro acc
    simp only [List.foldl_cons]
    by_cases h : create nd.Addr
    · have hstep : addNode create acc nd = (acc.1 ++ [nd.Addr], acc.2 ++ [nd.Tag]) := by
        simp [addNode, h]
      rw [hstep, ih]
      simp [List.filter_cons, h]
    · have hstep : addNode create acc nd = acc := by
        simp [addNode, h]
      rw [hstep, ih]
      simp [List.filter_cons, h]

/-- Claim C8: with a non-empty configured node list, nodes whose client
creation fails are excluded from the clients and tags lists (which contain
exactly the surviving nodes, in order), and construction returns an error
exactly when no node survives. -/
theorem construction_excludes_failed_nodes (opts : GRPCCoreOpts) (create : String → Bool)
    (h : opts.CheckerNodes ≠ []) :
    (NewGRPCCore opts create = .error "no checker nodes available" ↔
      opts.CheckerNodes.filter (fun node => create node.Addr) = []) ∧
    (∀ core : GRPCCore, NewGRPCCore opts create = .ok core →
      core.clients =
        (opts.CheckerNodes.filter (fun node => create node.Addr)).map CheckerNodeConfig.Addr ∧
      core.clientTags =
        (opts.CheckerNodes.filter (fun node => create node.Addr)).map CheckerNodeConfig.Tag) := by
  have hlen : 0 < opts.CheckerNodes.length := List.length_pos.mpr h
  unfold NewGRPCCore
  rw [if_pos hlen, addNode_foldl opts.CheckerNodes create ([], [])]
  simp only [List.nil_append]
  by_cases hf : opts.CheckerNodes.filter (fun node => create node.Addr) = []
  · simp [hf]
  · have hm : (opts.CheckerNodes.filter (fun node => create node.Addr)).map
        CheckerNodeConfig.Addr ≠ [] := by
      simpa using hf
    simp only [if_neg hm]
    constructor
    · constructor
      · intro habs
        exact absurd habs (by simp)
      · intro habs
        exact absurd habs hf
    · intro core hcore
      have hrec := Except.ok.inj hcore
      subst hrec
      exact ⟨rfl, rfl⟩

theorem construction_excludes_failed_nodes_witness :
    NewGRPCCore { CheckerNodes := [{ Addr := "addr-a", Tag := "t1" },
                                   { Addr := "addr-b", Tag := "t2" }] }
      (fun _ => false) = .error "no checker nodes available" :=
  (construction_excludes_failed_nodes
    { CheckerNodes := [{ Addr := "addr-a", Tag := "t1" }, { Addr := "addr-b", Tag := "t2" }] }
    (fun _ => false) (by decide)).1.mpr (by decide)

/-- Claim C9: the configured timeout is truncated to whole seconds before
the positivity check, so a timeout strictly between zero and one second
falls back to the 30-second default exactly like a non-positive one; a
non-positive MaxConcurrent falls back to 100. -/
theorem subsecond_timeout_replaced_by_default (t : Int) (h1 : 0 < t) (h2 : t < nsPerSecond) :
    effectiveTimeout t = 30 * nsPerSecond ∧
    (∀ u : Int, u ≤ 0 → effectiveTimeout u = 30 * nsPerSecond) ∧
    (∀ m : Int, m ≤ 0 → effectiveMaxConcurrent m = 100) := by
  refine ⟨?_, ?_, ?_⟩
  · have htr : durationTruncate t nsPerSecond = 0 := by
      unfold durationTruncate nsPerSecond
      rw [if_neg (by norm_num)]
      have hmod : t.tmod 1000000000 = t := by
        rw [Int.tmod_eq_emod (le_of_lt h1) (by norm_num)]
        exact Int.emod_eq_of_lt (le_of_lt h1) (by simpa [nsPerSecond] using h2)
      omega
    simp [effectiveTimeout, htr]
  · intro u hu
    have htr : durationTruncate u nsPerSecond ≤ 0 := by
      unfold durationTruncate nsPerSecond
      rw [if_neg (by norm_num)]
      have hdm := Int.tdiv_add_tmod u (1000000000 : Int)
      have h4 : 0 ≤ (-u).tdiv (1000000000 : Int) := Int.tdiv_nonneg (by omega) (by norm_num)
      have h5 : (-u).tdiv (1000000000 : Int) = -(u.tdiv (1000000000 : Int)) :=
        Int.neg_tdiv u 1000000000
      nlinarith [hdm, h4, h5]
    simp [effectiveTimeout, htr]
  · intro m hm
    simp [effectiveMaxConcurrent, hm]

theorem subsecond_timeout_witness :
    effectiveTimeout 500000000 = 30 * nsPerSecond ∧ effectiveMaxConcurrent 0 = 100 :=
  ⟨(subsecond_timeout_replaced_by_default 500000000 (by decide) (by decide)).1,
   (subsecond_timeout_replaced_by_default 500000000 (by decide) (by decide)).2.2 0 (by decide)⟩

end Namira
